import Mathlib

/-!
Shallow embedding of the proxy state core of ztunnel (src/state.rs): the
multi-index proxy state store, upstream resolution, the RBAC authorization
decision, DNS resolution caching, waypoint chaining and the on-demand fetch
facade.  Rust machine integers that matter here (ports u16, TTLs u32/u64)
are modelled as Nat with explicit bounds where overflow is relevant; random
selection (rand choose) is modelled by an explicit selector index, which
returns none exactly on an empty candidate list and otherwise a member;
async effects are modelled by explicit state passing.
-/

instance {ε α : Type} [DecidableEq ε] [DecidableEq α] : DecidableEq (Except ε α) := fun a b =>
  match a, b with
  | .error x, .error y =>
    if h : x = y then isTrue (congrArg Except.error h)
    else isFalse fun hc => h (Except.error.inj hc)
  | .error _, .ok _ => isFalse fun hc => Except.noConfusion hc
  | .ok _, .error _ => isFalse fun hc => Except.noConfusion hc
  | .ok x, .ok y =>
    if h : x = y then isTrue (congrArg Except.ok h)
    else isFalse fun hc => h (Except.ok.inj hc)

/-- Association-list lookup used for the hash-map indices of the stores. -/
def lookupA {α β : Type} [DecidableEq α] : List (α × β) → α → Option β
  | [], _ => none
  | (k, v) :: rest, a => if k = a then some v else lookupA rest a

/-- Model of std::net::IpAddr: an opaque address value. -/
abbrev IpAddr := Nat

/-- Model of std::net::SocketAddr: an IP together with a u16 port. -/
structure SocketAddr where
  ip : IpAddr
  port : Nat
  deriving DecidableEq, Repr

/-- NetworkAddress from the workload module: a network label and an IP.
Equality is exact on both fields. -/
structure NetworkAddress where
  network : String
  address : IpAddr
  deriving DecidableEq, Repr

/-- Helper network_addr from the workload module: builds a NetworkAddress. -/
def network_addr (network : String) (address : IpAddr) : NetworkAddress :=
  { network := network, address := address }

/-- NamespacedHostname: a namespace paired with a hostname. -/
structure NamespacedHostname where
  namespace_ : String
  hostname : String
  deriving DecidableEq, Repr

/-- Destination from the gatewayaddress module: an address or a hostname. -/
inductive Destination where
  | address (addr : NetworkAddress)
  | hostname (name : NamespacedHostname)
  deriving DecidableEq, Repr

/-- Workload protocol. -/
inductive Protocol where
  | HBONE
  | TCP
  deriving DecidableEq, Repr

/-- GatewayAddress: a waypoint destination with its HBONE mTLS port. -/
structure GatewayAddress where
  destination : Destination
  hbone_mtls_port : Nat
  deriving DecidableEq, Repr

/-- Modelled from the spec: the Workload record of the workload module (not
under src/).  Attributes follow section 3 of the spec: uid, name, namespace,
workload_ips, hostname, gateway_address, waypoint, protocol,
authorization_policies and network.  The method waypoint_svc_ip_address
(also outside src/) is modelled as an abstract precomputed result: it may
fail (Except.error) or yield an optional service IP, which is all
set_gateway_address observes of it. -/
structure Workload where
  uid : String
  name : String
  namespace_ : String
  workload_ips : List IpAddr
  hostname : String
  gateway_address : Option SocketAddr
  waypoint : Option GatewayAddress
  protocol : Protocol
  authorization_policies : List String
  network : String
  waypoint_svc_ip_address : Except String (Option IpAddr)
  deriving DecidableEq, Repr

/-- Endpoint of a service: the backing workload UID and the per-port
override map (service port to target port). -/
structure Endpoint where
  workload_uid : String
  port : List (Nat × Nat)
  deriving DecidableEq, Repr

/-- Modelled from the spec: the Service record of the service module (not
under src/): namespaced hostname, VIPs, declared ports (service port to
target port), endpoints keyed by endpoint key, and subject alt names. -/
structure Service where
  name : String
  namespace_ : String
  hostname : String
  vips : List NetworkAddress
  ports : List (Nat × Nat)
  endpoints : List (String × Endpoint)
  subject_alt_names : List String
  deriving DecidableEq, Repr

/-- Modelled from the spec: ServiceDescription (service module, not under
src/) describes the service used to resolve an upstream; it is modelled as
the service value itself. -/
abbrev ServiceDescription := Service

/-- Address: the tagged result of a unified lookup. -/
inductive Address where
  | workload (wl : Workload)
  | service (svc : Service)
  deriving DecidableEq, Repr

/-- Upstream: the resolved target of a flow. -/
structure Upstream where
  workload : Workload
  port : Nat
  sans : List String
  destination_service : Option ServiceDescription
  deriving DecidableEq, Repr

/-- Modelled from the spec: the WorkloadStore of the workload module (not
under src/), an indexed set of workloads keyed by uid, by network+IP, and by
bare hostname. -/
structure WorkloadStore where
  by_uid : List (String × Workload)
  by_addr : List (NetworkAddress × Workload)
  by_host : List (String × Workload)

/-- Exact-match lookup by UID. -/
def WorkloadStore.find_uid (s : WorkloadStore) (uid : String) : Option Workload :=
  lookupA s.by_uid uid

/-- Exact-match lookup by network address. -/
def WorkloadStore.find_address (s : WorkloadStore) (addr : NetworkAddress) : Option Workload :=
  lookupA s.by_addr addr

/-- Exact-match lookup by bare hostname. -/
def WorkloadStore.find_hostname (s : WorkloadStore) (hostname : String) : Option Workload :=
  lookupA s.by_host hostname

/-- Modelled from the spec: the ServiceStore of the service module (not
under src/), indexed by VIP and by namespaced hostname. -/
structure ServiceStore where
  by_vip : List (NetworkAddress × Service)
  by_host : List (NamespacedHostname × Service)

/-- Lookup of the service whose VIP set contains the address. -/
def ServiceStore.get_by_vip (s : ServiceStore) (addr : NetworkAddress) : Option Service :=
  lookupA s.by_vip addr

/-- Exact-match lookup by namespaced hostname. -/
def ServiceStore.get_by_namespaced_host (s : ServiceStore) (name : NamespacedHostname) : Option Service :=
  lookupA s.by_host name

/-- RBAC action of an authorization policy. -/
inductive RbacAction where
  | Allow
  | Deny
  deriving DecidableEq, Repr

/-- Modelled from the spec: the rbac::Connection descriptor (not under
src/): source identity, destination identity, source IP, destination socket
and destination network label. -/
structure Connection where
  src_identity : Option String
  dst_identity : Option String
  src_ip : IpAddr
  dst : SocketAddr
  dst_network : String

/-- Modelled from the spec: an rbac::Authorization policy (not under src/):
key, namespace, action, and a matcher predicate over connections.  The
matcher is modelled as an abstract boolean predicate, which is all that
assert_rbac observes of a policy besides its action. -/
structure Policy where
  key : String
  namespace_ : String
  action : RbacAction
  matches_ : Connection → Bool

/-- Modelled from the spec: the PolicyStore of the policy module (not under
src/): policies indexed by key, and the key sets indexed by namespace. -/
structure PolicyStore where
  by_key : List (String × Policy)
  by_namespace : List (String × List String)

/-- Policy lookup by key. -/
def PolicyStore.get (s : PolicyStore) (key : String) : Option Policy :=
  lookupA s.by_key key

/-- Keys of the policies in a namespace (empty string denotes root). -/
def PolicyStore.get_by_namespace (s : PolicyStore) (ns : String) : List String :=
  (lookupA s.by_namespace ns).getD []

/-- ProxyState: the three stores behind the single lock. -/
structure ProxyState where
  workloads : WorkloadStore
  services : ServiceStore
  policies : PolicyStore

/-- Model of rand choose over an indexed list: an explicit selector index
in place of the thread-local RNG.  It returns none exactly on an empty
list, and otherwise a member of the list. -/
def chooseIdx {α : Type} (sel : Nat) (l : List α) : Option α :=
  l.get? (sel % l.length)

/-- ProxyState::find_address — consult workloads first, fall back to the
services VIP index on miss. -/
def ProxyState.find_address (s : ProxyState) (network_addr : NetworkAddress) : Option Address :=
  match s.workloads.find_address network_addr with
  | none =>
    match s.services.get_by_vip network_addr with
    | some svc => some (Address.service svc)
    | none => none
  | some wl => some (Address.workload wl)

/-- ProxyState::find_hostname — consult services first, fall back to
workloads by bare hostname, ignoring the namespace. -/
def ProxyState.find_hostname (s : ProxyState) (name : NamespacedHostname) : Option Address :=
  match s.services.get_by_namespaced_host name with
  | none => (s.workloads.find_hostname name.hostname).map Address.workload
  | some svc => some (Address.service svc)

/-- ProxyState::find_destination — dispatch on the Destination variant. -/
def ProxyState.find_destination (s : ProxyState) (dest : Destination) : Option Address :=
  match dest with
  | Destination.address addr => s.find_address addr
  | Destination.hostname name => s.find_hostname name

/-- ProxyState::find_upstream.  The random endpoint choice is modelled by
the selector sel. -/
def ProxyState.find_upstream (s : ProxyState) (sel : Nat) (network : String)
    (addr : SocketAddr) : Option Upstream :=
  match s.services.get_by_vip (network_addr network addr.ip) with
  | some svc =>
    match lookupA svc.ports addr.port with
    | none => none
    | some target_port =>
      match chooseIdx sel svc.endpoints with
      | none => none
      | some (_, ep) =>
        match s.workloads.find_uid ep.workload_uid with
        | none => none
        | some wl =>
          let target_port := (lookupA ep.port addr.port).getD target_port
          some { workload := wl
                 port := target_port
                 sans := svc.subject_alt_names
                 destination_service := some svc }
  | none =>
    match s.workloads.find_address (network_addr network addr.ip) with
    | some wl =>
      some { workload := wl, port := addr.port, sans := [], destination_service := none }
    | none => none

/-- WaypointError from the workload module. -/
inductive WaypointError where
  | UnsupportedFeature (msg : String)
  | FindWaypointError (name : String)
  deriving DecidableEq, Repr

/-- Errors of the load-balancing path (proxy::Error subset). -/
inductive ProxyError where
  | NoValidDestination (wl : Workload)
  | NoResolvedAddresses (uid : String)
  | EmptyResolvedAddresses (uid : String)
  deriving DecidableEq, Repr

/-- set_gateway_address: fill the upstream gateway_address if unset, per
protocol.  A failure of waypoint_svc_ip_address propagates as an error. -/
def set_gateway_address (us : Upstream) (workload_ip : IpAddr) (hbone_port : Nat) :
    Except String Upstream :=
  if us.workload.gateway_address.isNone then
    match us.workload.protocol with
    | Protocol.HBONE =>
      match us.workload.waypoint_svc_ip_address with
      | Except.error e => Except.error e
      | Except.ok svc_ip =>
        let ip := svc_ip.getD workload_ip
        Except.ok { us with
          workload := { us.workload with gateway_address := some { ip := ip, port := hbone_port } } }
    | Protocol.TCP =>
      Except.ok { us with
        workload := { us.workload with gateway_address := some { ip := workload_ip, port := us.port } } }
  else
    Except.ok us

/-- Modelled from the spec: the effect on the local state of issuing an
on-demand discovery request for a key and awaiting its delivery.  The
discovery client is outside src/; it is modelled as an abstract state
transformer applied per key. -/
def Demander := String → ProxyState → ProxyState

/-- DemandProxyState: the proxy state together with the optional demander.
The DNS resolver it carries is modelled separately below. -/
structure DemandProxyState where
  state : ProxyState
  demand : Option Demander

/-- Modelled from the spec: the Display key of a NetworkAddress used as the
on-demand fetch key. -/
def nwAddrKey (a : NetworkAddress) : String :=
  a.network ++ "/" ++ toString a.address

/-- Modelled from the spec: the Display key of a NamespacedHostname used as
the on-demand fetch key. -/
def nsHostKey (h : NamespacedHostname) : String :=
  h.namespace_ ++ "/" ++ h.hostname

/-- DemandProxyState::fetch_on_demand — a no-op on the state when no
discovery client is attached, otherwise the demand round-trip for key. -/
def DemandProxyState.fetch_on_demand (dps : DemandProxyState) (key : String) : ProxyState :=
  match dps.demand with
  | none => dps.state
  | some demander => demander key dps.state

/-- DemandProxyState::fetch_workload — local lookup, then on-demand fetch
and re-read on miss.  Returns the result with the post-fetch state. -/
def DemandProxyState.fetch_workload (dps : DemandProxyState) (addr : NetworkAddress) :
    Option Workload × ProxyState :=
  match dps.state.workloads.find_address addr with
  | some wl => (some wl, dps.state)
  | none =>
    let st := dps.fetch_on_demand (nwAddrKey addr)
    (st.workloads.find_address addr, st)

/-- DemandProxyState::fetch_workload_by_uid — as fetch_workload, keyed by
UID. -/
def DemandProxyState.fetch_workload_by_uid (dps : DemandProxyState) (uid : String) :
    Option Workload × ProxyState :=
  match dps.state.workloads.find_uid uid with
  | some wl => (some wl, dps.state)
  | none =>
    let st := dps.fetch_on_demand uid
    (st.workloads.find_uid uid, st)

/-- DemandProxyState::fetch_address — local unified lookup, then on-demand
fetch and re-read on miss. -/
def DemandProxyState.fetch_address (dps : DemandProxyState) (network_addr : NetworkAddress) :
    Option Address × ProxyState :=
  match dps.state.find_address network_addr with
  | some address => (some address, dps.state)
  | none =>
    let st := dps.fetch_on_demand (nwAddrKey network_addr)
    (st.find_address network_addr, st)

/-- DemandProxyState::fetch_hostname — local unified lookup by hostname,
then on-demand fetch and re-read on miss. -/
def DemandProxyState.fetch_hostname (dps : DemandProxyState) (hostname : NamespacedHostname) :
    Option Address × ProxyState :=
  match dps.state.find_hostname hostname with
  | some address => (some address, dps.state)
  | none =>
    let st := dps.fetch_on_demand (nsHostKey hostname)
    (st.find_hostname hostname, st)

/-- DemandProxyState::fetch_upstream — fetch_address for the target, then
find_upstream on the post-fetch state. -/
def DemandProxyState.fetch_upstream (dps : DemandProxyState) (sel : Nat) (network : String)
    (addr : SocketAddr) : Option Upstream × ProxyState :=
  let st := (dps.fetch_address (network_addr network addr.ip)).2
  (st.find_upstream sel network addr, st)

/-- DemandProxyState::fetch_waypoint — waypoint chaining: resolve the
waypoint upstream and adjust its gateway address. -/
def DemandProxyState.fetch_waypoint (dps : DemandProxyState) (sel : Nat) (wl : Workload)
    (workload_ip : IpAddr) : Except WaypointError (Option Upstream) :=
  match wl.waypoint with
  | none => Except.ok none
  | some gw_address =>
    match gw_address.destination with
    | Destination.hostname _ =>
      Except.error (WaypointError.UnsupportedFeature "hostname lookup not supported yet")
    | Destination.address wp_nw_addr =>
      let wp_socket_addr : SocketAddr :=
        { ip := wp_nw_addr.address, port := gw_address.hbone_mtls_port }
      match (dps.fetch_upstream sel wp_nw_addr.network wp_socket_addr).1 with
      | some upstream =>
        match set_gateway_address upstream workload_ip gw_address.hbone_mtls_port with
        | Except.ok adjusted => Except.ok (some adjusted)
        | Except.error _ => Except.error (WaypointError.FindWaypointError wl.name)
      | none => Except.error (WaypointError.FindWaypointError wl.name)

/-- DemandProxyState::assert_rbac — the authorization decision: fetch the
destination workload, gather the applicable policies from the workload
namespace, the root namespace and the workload list, then apply the
deny-first, default-allow, any-allow order. -/
def DemandProxyState.assert_rbac (dps : DemandProxyState) (conn : Connection) : Bool :=
  let nw_addr := network_addr conn.dst_network conn.dst.ip
  match dps.fetch_workload nw_addr with
  | (none, _) => false
  | (some wl, st) =>
    let ns := st.policies.get_by_namespace wl.namespace_
    let global := st.policies.get_by_namespace ""
    let workload := wl.authorization_policies
    let pols := (ns ++ global ++ workload).filterMap st.policies.get
    let parts := pols.partition fun p => p.action == RbacAction.Allow
    let allow := parts.1
    let deny := parts.2
    if deny.any fun p => p.matches_ conn then false
    else if allow.isEmpty then true
    else allow.any fun p => p.matches_ conn

/-- ResolvedDns: a cache entry of the resolver.  Instants and durations are
modelled as Nat time points and second counts. -/
structure ResolvedDns where
  hostname : String
  ips : List IpAddr
  initial_query : Option Nat
  dns_refresh_rate : Nat
  deriving DecidableEq, Repr

/-- Record data of a DNS response record: A, AAAA, or any other type. -/
inductive RData where
  | a (ip : IpAddr)
  | aaaa (ip : IpAddr)
  | other
  deriving DecidableEq, Repr

/-- One record of a DNS response: its TTL (u32 seconds) and its data. -/
structure DnsRecord where
  ttl : Nat
  data : RData
  deriving DecidableEq, Repr

/-- Upper bound used to seed the shortest-TTL scan (u64 MAX seconds). -/
def U64MAX : Nat := 2 ^ 64 - 1

/-- Left-to-right scan of a DNS response: the running shortest TTL over the
A and AAAA records, and the derived IP list. -/
def processRecords : List DnsRecord → Nat → Nat × List IpAddr
  | [], rate => (rate, [])
  | r :: rest, rate =>
    match r.data with
    | RData.a ip =>
      let rate := if r.ttl < rate then r.ttl else rate
      let p := processRecords rest rate
      (p.1, ip :: p.2)
    | RData.aaaa ip =>
      let rate := if r.ttl < rate then r.ttl else rate
      let p := processRecords rest rate
      (p.1, ip :: p.2)
    | RData.other => processRecords rest rate

/-- State of the DNS resolver cache: the resolved map.  The in-progress
notifier map synchronizes concurrent tasks and has no sequential effect. -/
structure DnsResolverState where
  resolved : List (String × ResolvedDns)

/-- DnsResolver::_find_resolved_host — the cache read: an entry counts only
when its initial query instant is set and its age is within the refresh
rate. -/
def DnsResolverState.findResolvedHost (st : DnsResolverState) (now : Nat) (hostname : String) :
    Option ResolvedDns :=
  match lookupA st.resolved hostname with
  | none => none
  | some rdns =>
    if rdns.initial_query.isSome ∧ now - rdns.initial_query.getD 0 < rdns.dns_refresh_rate then
      some rdns
    else
      none

/-- DnsResolver::_resolve_host — perform one resolution for the workload
hostname and install the result.  resp is the outcome of the async lookup:
none models a resolver construction or lookup error (early return, cache
untouched); some gives the response records. -/
def DnsResolverState.resolveHostUpdate (st : DnsResolverState) (now : Nat) (wl : Workload)
    (resp : Option (List DnsRecord)) : DnsResolverState :=
  match resp with
  | none => st
  | some records =>
    let p := processRecords records U64MAX
    let dns_refresh_rate := if p.2.isEmpty then 60 else p.1
    let rdns : ResolvedDns :=
      { hostname := wl.hostname
        ips := p.2
        initial_query := some now
        dns_refresh_rate := dns_refresh_rate }
    { resolved := (wl.hostname, rdns) :: st.resolved }

/-- DnsResolver::resolve_host, sequential single-caller semantics: serve
from cache on a hit; otherwise resolve (as leader), then re-read the cache.
Returns the result, the post state, and whether a resolution was
initiated. -/
def DnsResolverState.resolve_host (st : DnsResolverState) (now : Nat) (wl : Workload)
    (resp : Option (List DnsRecord)) : Option ResolvedDns × DnsResolverState × Bool :=
  match st.findResolvedHost now wl.hostname with
  | some resolved => (some resolved, st, false)
  | none =>
    let st2 := st.resolveHostUpdate now wl resp
    (st2.findResolvedHost now wl.hostname, st2, true)

/-- DemandProxyState::load_balance — pick a destination IP for a workload.
The resolver round-trip is abstracted by its outcome: resolved is what
resolve_host returned for the destination workload.  The two selectors
model the random choices over workload_ips and over the resolved set. -/
def load_balance (dst_workload : Workload) (sel_wl : Nat) (sel_dns : Nat)
    (resolved : Option ResolvedDns) : Except ProxyError IpAddr :=
  match chooseIdx sel_wl dst_workload.workload_ips with
  | some ip => Except.ok ip
  | none =>
    if dst_workload.hostname = "" then
      Except.error (ProxyError.NoValidDestination dst_workload)
    else
      match resolved with
      | some rdns =>
        match chooseIdx sel_dns rdns.ips with
        | some ip => Except.ok ip
        | none => Except.error (ProxyError.EmptyResolvedAddresses dst_workload.uid)
      | none => Except.error (ProxyError.NoResolvedAddresses dst_workload.uid)

/-- Applicable policies of a workload in a state: keys gathered from the
workload namespace, the root namespace and the workload policy list, each
resolved through the policy store with missing keys skipped. -/
def applicablePolicies (st : ProxyState) (wl : Workload) : List Policy :=
  (st.policies.get_by_namespace wl.namespace_ ++ st.policies.get_by_namespace "" ++
    wl.authorization_policies).filterMap st.policies.get

/-- Allow subset of a policy list. -/
def allowOf (pols : List Policy) : List Policy :=
  pols.filter fun p => p.action == RbacAction.Allow

/-- Deny subset of a policy list. -/
def denyOf (pols : List Policy) : List Policy :=
  pols.filter fun p => !(p.action == RbacAction.Allow)

/-- TTLs of the A and AAAA records of a response. -/
def ipTtls (records : List DnsRecord) : List Nat :=
  records.filterMap fun r =>
    match r.data with
    | RData.a _ => some r.ttl
    | RData.aaaa _ => some r.ttl
    | RData.other => none

/-- Workload with all-default fields, the base of the test fixtures. -/
def defaultWorkload : Workload :=
  { uid := "", name := "", namespace_ := "", workload_ips := [], hostname := "",
    gateway_address := none, waypoint := none, protocol := Protocol.TCP,
    authorization_policies := [], network := "",
    waypoint_svc_ip_address := Except.ok none }

/-- Fixture workload with one IP, indexed under uid-a. -/
def wlA : Workload :=
  { defaultWorkload with
    uid := "uid-a"
    name := "a"
    namespace_ := "default"
    workload_ips := [10] }

/-- Fixture endpoint with no port override. -/
def epA : Endpoint := { workload_uid := "uid-a", port := [] }

/-- Fixture endpoint whose override map holds only a foreign key. -/
def epOther : Endpoint := { workload_uid := "uid-a", port := [(9999, 42)] }

/-- Fixture endpoint whose override map holds the service port key. -/
def epHit : Endpoint := { workload_uid := "uid-a", port := [(80, 42)] }

/-- Fixture VIP. -/
def vipA : NetworkAddress := { network := "", address := 100 }

/-- Fixture service on vipA declaring port 80 with target 8080. -/
def svcA : Service :=
  { name := "svc", namespace_ := "default", hostname := "svc.default",
    vips := [vipA], ports := [(80, 8080)], endpoints := [("e1", epA)],
    subject_alt_names := ["san1"] }

/-- Fixture service whose endpoint override uses a foreign key. -/
def svcOther : Service := { svcA with endpoints := [("e1", epOther)] }

/-- Fixture service whose endpoint override uses the service port key. -/
def svcHit : Service := { svcA with endpoints := [("e1", epHit)] }

/-- Fixture proxy state with wlA and svcA indexed. -/
def stateA : ProxyState :=
  { workloads :=
      { by_uid := [("uid-a", wlA)]
        by_addr := [({ network := "", address := 10 }, wlA)]
        by_host := [] }
    services :=
      { by_vip := [(vipA, svcA)]
        by_host := [({ namespace_ := "default", hostname := "svc.default" }, svcA)] }
    policies := { by_key := [], by_namespace := [] } }

/-- Fixture state carrying svcOther on the VIP. -/
def stateOther : ProxyState :=
  { stateA with services := { by_vip := [(vipA, svcOther)], by_host := [] } }

/-- Fixture state carrying svcHit on the VIP. -/
def stateHit : ProxyState :=
  { stateA with services := { by_vip := [(vipA, svcHit)], by_host := [] } }

/-- Fixture demand state with no discovery client. -/
def dpsA : DemandProxyState := { state := stateA, demand := none }

/-- Fixture connection towards the IP of wlA. -/
def connC : Connection :=
  { src_identity := none, dst_identity := none, src_ip := 1,
    dst := { ip := 10, port := 80 }, dst_network := "" }

/-- Fixture deny policy matching every connection. -/
def polDeny : Policy :=
  { key := "default/deny", namespace_ := "default", action := RbacAction.Deny,
    matches_ := fun _ => true }

/-- Fixture allow policy matching every connection. -/
def polAllow : Policy :=
  { key := "default/allow", namespace_ := "default", action := RbacAction.Allow,
    matches_ := fun _ => true }

/-- Fixture state with a matching Deny and a matching Allow policy. -/
def stateRbacDeny : ProxyState :=
  { stateA with policies :=
      { by_key := [("default/deny", polDeny), ("default/allow", polAllow)]
        by_namespace := [("default", ["default/deny", "default/allow"])] } }

/-- Fixture demand state for the deny-wins scenario. -/
def dpsDeny : DemandProxyState := { state := stateRbacDeny, demand := none }

/-- Fixture waypoint gateway towards vipA with the HBONE mTLS port. -/
def gwWp : GatewayAddress :=
  { destination := Destination.address vipA, hbone_mtls_port := 15008 }

/-- Fixture workload that carries a waypoint. -/
def wlWp : Workload := { defaultWorkload with uid := "uid-wp", name := "wp", waypoint := some gwWp }

/-- Fixture service used as the waypoint upstream, declaring the HBONE port. -/
def svcWp : Service :=
  { svcA with ports := [(15008, 15008)], endpoints := [("e1", epA)] }

/-- Fixture state for the waypoint scenario. -/
def stateWp : ProxyState :=
  { stateA with services := { by_vip := [(vipA, svcWp)], by_host := [] } }

/-- Fixture demand state for the waypoint scenario. -/
def dpsWp : DemandProxyState := { state := stateWp, demand := none }

/-- Fixture workload addressable only by hostname. -/
def wlHost : Workload := { defaultWorkload with uid := "uid-h", name := "h", hostname := "h" }

/-- Fixture resolved DNS entry for hostname h. -/
def rdnsA : ResolvedDns :=
  { hostname := "h", ips := [7], initial_query := some 0, dns_refresh_rate := 30 }

/-- Fixture resolver cache holding rdnsA. -/
def dnsStA : DnsResolverState := { resolved := [("h", rdnsA)] }

/-- Fixture DNS response with one A and one AAAA record. -/
def recsA : List DnsRecord :=
  [{ ttl := 30, data := RData.a 1 }, { ttl := 20, data := RData.aaaa 2 }]

/-- A successful chooseIdx yields a member of the candidate list. -/
theorem chooseIdx_mem {α : Type} {sel : Nat} {l : List α} {a : α}
    (h : chooseIdx sel l = some a) : a ∈ l :=
  List.get?_mem h

/-- chooseIdx fails exactly on the empty candidate list. -/
theorem chooseIdx_eq_none_iff {α : Type} (sel : Nat) (l : List α) :
    chooseIdx sel l = none ↔ l = [] := by
  unfold chooseIdx
  rw [List.get?_eq_none]
  constructor
  · intro h
    cases l with
    | nil => rfl
    | cons x xs => exact absurd (Nat.mod_lt sel (by simp)) (Nat.not_lt.mpr h)
  · intro h
    subst h
    simp

/-- chooseIdx succeeds on every nonempty candidate list. -/
theorem chooseIdx_isSome {α : Type} (sel : Nat) {l : List α} (h : l ≠ []) :
    ∃ a, chooseIdx sel l = some a := by
  cases hc : chooseIdx sel l with
  | none => exact absurd ((chooseIdx_eq_none_iff sel l).mp hc) h
  | some a => exact ⟨a, rfl⟩

/-- A left fold by min never exceeds its seed. -/
theorem foldl_min_le_start : ∀ (l : List Nat) (acc : Nat), List.foldl min acc l ≤ acc := by
  intro l
  induction l with
  | nil => intro acc; simp
  | cons x xs ih =>
    intro acc
    calc List.foldl min acc (x :: xs) = List.foldl min (min acc x) xs := rfl
    _ ≤ min acc x := ih (min acc x)
    _ ≤ acc := Nat.min_le_left acc x

/-- A left fold by min is a lower bound of the list members. -/
theorem foldl_min_le_mem : ∀ (l : List Nat) (acc t : Nat), t ∈ l → List.foldl min acc l ≤ t := by
  intro l
  induction l with
  | nil => intro acc t h; cases h
  | cons x xs ih =>
    intro acc t h
    rcases List.mem_cons.mp h with rfl | hm
    · calc List.foldl min acc (t :: xs) = List.foldl min (min acc t) xs := rfl
      _ ≤ min acc t := foldl_min_le_start xs (min acc t)
      _ ≤ t := Nat.min_le_right acc t
    · exact ih (min acc x) t hm

/-- A left fold by min is a member of the list or equals its seed. -/
theorem foldl_min_mem_or_start : ∀ (l : List Nat) (acc : Nat),
    List.foldl min acc l ∈ l ∨ List.foldl min acc l = acc := by
  intro l
  induction l with
  | nil => intro acc; right; rfl
  | cons x xs ih =>
    intro acc
    rcases ih (min acc x) with h | h
    · left
      exact List.mem_cons_of_mem x h
    · rw [show List.foldl min acc (x :: xs) = List.foldl min (min acc x) xs from rfl, h]
      rcases Nat.le_total acc x with hle | hle
      · right
        exact Nat.min_eq_left hle
      · left
        rw [Nat.min_eq_right hle]
        exact List.mem_cons_self x xs

/-- The shortest-TTL scan equals the fold by min of the A and AAAA TTLs. -/
theorem processRecords_fst : ∀ (records : List DnsRecord) (acc : Nat),
    (processRecords records acc).1 = List.foldl min acc (ipTtls records) := by
  intro records
  induction records with
  | nil => intro acc; simp [processRecords, ipTtls]
  | cons r rest ih =>
    intro acc
    cases hd : r.data with
    | a ip =>
      have h1 : ipTtls (r :: rest) = r.ttl :: ipTtls rest := by
        simp [ipTtls, List.filterMap_cons, hd]
      have h2 : (processRecords (r :: rest) acc).1 =
          (processRecords rest (if r.ttl < acc then r.ttl else acc)).1 := by
        simp [processRecords, hd]
      have h3 : (if r.ttl < acc then r.ttl else acc) = min acc r.ttl := by
        split <;> omega
      rw [h1, h2, ih, h3]
      rfl
    | aaaa ip =>
      have h1 : ipTtls (r :: rest) = r.ttl :: ipTtls rest := by
        simp [ipTtls, List.filterMap_cons, hd]
      have h2 : (processRecords (r :: rest) acc).1 =
          (processRecords rest (if r.ttl < acc then r.ttl else acc)).1 := by
        simp [processRecords, hd]
      have h3 : (if r.ttl < acc then r.ttl else acc) = min acc r.ttl := by
        split <;> omega
      rw [h1, h2, ih, h3]
      rfl
    | other =>
      have h1 : ipTtls (r :: rest) = ipTtls rest := by
        simp [ipTtls, List.filterMap_cons, hd]
      have h2 : (processRecords (r :: rest) acc).1 = (processRecords rest acc).1 := by
        simp [processRecords, hd]
      rw [h1, h2, ih]

/-- The derived IP list and the A and AAAA TTL list have equal length. -/
theorem processRecords_snd_len : ∀ (records : List DnsRecord) (acc : Nat),
    (processRecords records acc).2.length = (ipTtls records).length := by
  intro records
  induction records with
  | nil => intro acc; simp [processRecords, ipTtls]
  | cons r rest ih =>
    intro acc
    cases hd : r.data with
    | a ip =>
      have h1 : ipTtls (r :: rest) = r.ttl :: ipTtls rest := by
        simp [ipTtls, List.filterMap_cons, hd]
      have h2 : (processRecords (r :: rest) acc).2 =
          ip :: (processRecords rest (if r.ttl < acc then r.ttl else acc)).2 := by
        simp [processRecords, hd]
      rw [h1, h2]
      simp [ih]
    | aaaa ip =>
      have h1 : ipTtls (r :: rest) = r.ttl :: ipTtls rest := by
        simp [ipTtls, List.filterMap_cons, hd]
      have h2 : (processRecords (r :: rest) acc).2 =
          ip :: (processRecords rest (if r.ttl < acc then r.ttl else acc)).2 := by
        simp [processRecords, hd]
      rw [h1, h2]
      simp [ih]
    | other =>
      have h1 : ipTtls (r :: rest) = ipTtls rest := by
        simp [ipTtls, List.filterMap_cons, hd]
      have h2 : (processRecords (r :: rest) acc).2 = (processRecords rest acc).2 := by
        simp [processRecords, hd]
      rw [h1, h2, ih]

/-- The derived IP list is empty exactly when there are no A or AAAA
records. -/
theorem processRecords_snd_nil (records : List DnsRecord) (acc : Nat) :
    (processRecords records acc).2 = [] ↔ ipTtls records = [] := by
  rw [← List.length_eq_zero, ← List.length_eq_zero, processRecords_snd_len]

/-- TTLs of A and AAAA records inherit the u32 bound of record TTLs. -/
theorem ipTtls_bound {records : List DnsRecord} (h : ∀ r ∈ records, r.ttl < 2 ^ 32) :
    ∀ t ∈ ipTtls records, t < 2 ^ 32 := by
  intro t ht
  rcases List.mem_filterMap.mp ht with ⟨r, hr, hf⟩
  have hb := h r hr
  cases hd : r.data with
  | a ip =>
    rw [hd] at hf
    simp only [Option.some.injEq] at hf
    omega
  | aaaa ip =>
    rw [hd] at hf
    simp only [Option.some.injEq] at hf
    omega
  | other =>
    rw [hd] at hf
    cases hf

/-- C6: find_address returns the workload indexed at the address when one
exists and only consults the service VIP index on workload miss;
find_hostname returns the service for the namespaced hostname when one
exists and only on service miss looks up a workload by bare hostname with
the namespace ignored; find_destination dispatches by the Destination
variant tag. -/
theorem find_dispatch_spec (s : ProxyState) (na : NetworkAddress) (nh : NamespacedHostname) :
    (∀ wl, s.workloads.find_address na = some wl →
      s.find_address na = some (Address.workload wl))
    ∧ (s.workloads.find_address na = none →
      s.find_address na = (s.services.get_by_vip na).map Address.service)
    ∧ (∀ svc, s.services.get_by_namespaced_host nh = some svc →
      s.find_hostname nh = some (Address.service svc))
    ∧ (s.services.get_by_namespaced_host nh = none →
      s.find_hostname nh = (s.workloads.find_hostname nh.hostname).map Address.workload)
    ∧ s.find_destination (Destination.address na) = s.find_address na
    ∧ s.find_destination (Destination.hostname nh) = s.find_hostname nh := by
  refine ⟨?_, ?_, ?_, ?_, rfl, rfl⟩
  · intro wl h
    simp [ProxyState.find_address, h]
  · intro h
    cases hv : s.services.get_by_vip na <;> simp [ProxyState.find_address, h, hv]
  · intro svc h
    simp [ProxyState.find_hostname, h]
  · intro h
    simp [ProxyState.find_hostname, h]

/-- C6 witness: concrete hit cases for the address and the hostname paths
on the fixture state. -/
theorem find_dispatch_spec_witness :
    stateA.find_address { network := "", address := 10 } = some (Address.workload wlA)
    ∧ stateA.find_hostname { namespace_ := "default", hostname := "svc.default" } =
        some (Address.service svcA) :=
  ⟨(find_dispatch_spec stateA { network := "", address := 10 }
      { namespace_ := "default", hostname := "svc.default" }).1 wlA rfl,
   (find_dispatch_spec stateA { network := "", address := 10 }
      { namespace_ := "default", hostname := "svc.default" }).2.2.1 svcA rfl⟩

/-- C2: on a VIP hit with the socket port declared, find_upstream builds
the service upstream from the chosen endpoint: the port is the endpoint
override under the socket port if set, else the declared target port; the
sans are the service subject_alt_names; destination_service carries the
service.  On a VIP miss with a workload hit it builds the direct upstream
with the socket port, empty sans and no destination service.  It returns
none when neither matches, when the port is undeclared, when the service
has no endpoints, or when the chosen endpoint workload UID resolves to no
workload. -/
theorem find_upstream_spec (s : ProxyState) (sel : Nat) (network : String) (addr : SocketAddr) :
    (∀ svc, s.services.get_by_vip (network_addr network addr.ip) = some svc →
      (∀ tp, lookupA svc.ports addr.port = some tp →
        (∀ k ep, chooseIdx sel svc.endpoints = some (k, ep) →
          (∀ wl, s.workloads.find_uid ep.workload_uid = some wl →
            s.find_upstream sel network addr =
              some { workload := wl, port := (lookupA ep.port addr.port).getD tp,
                     sans := svc.subject_alt_names, destination_service := some svc })
          ∧ (s.workloads.find_uid ep.workload_uid = none →
            s.find_upstream sel network addr = none))
        ∧ (svc.endpoints = [] → s.find_upstream sel network addr = none))
      ∧ (lookupA svc.ports addr.port = none → s.find_upstream sel network addr = none))
    ∧ (s.services.get_by_vip (network_addr network addr.ip) = none →
      (∀ wl, s.workloads.find_address (network_addr network addr.ip) = some wl →
        s.find_upstream sel network addr =
          some { workload := wl, port := addr.port, sans := [], destination_service := none })
      ∧ (s.workloads.find_address (network_addr network addr.ip) = none →
        s.find_upstream sel network addr = none)) := by
  constructor
  · intro svc hsvc
    constructor
    · intro tp htp
      constructor
      · intro k ep hch
        constructor
        · intro wl hwl
          simp [ProxyState.find_upstream, hsvc, htp, hch, hwl]
        · intro hwl
          simp [ProxyState.find_upstream, hsvc, htp, hch, hwl]
      · intro hemp
        have hcn : chooseIdx sel svc.endpoints = none :=
          (chooseIdx_eq_none_iff sel svc.endpoints).mpr hemp
        simp [ProxyState.find_upstream, hsvc, htp, hcn]
    · intro htp
      simp [ProxyState.find_upstream, hsvc, htp]
  · intro hsvc
    constructor
    · intro wl hwl
      simp [ProxyState.find_upstream, hsvc, hwl]
    · intro hwl
      simp [ProxyState.find_upstream, hsvc, hwl]

/-- C2 witness: on the fixture state the VIP hit on port 80 yields the
declared target port 8080, the service sans and the service description. -/
theorem find_upstream_spec_witness :
    stateA.find_upstream 0 "" { ip := 100, port := 80 } =
      some { workload := wlA, port := 8080, sans := ["san1"], destination_service := some svcA } :=
  ((((find_upstream_spec stateA 0 "" { ip := 100, port := 80 }).1 svcA rfl).1 8080 rfl).1
    "e1" epA rfl).1 wlA rfl

/-- C10: the endpoint per-port override map is consulted under the
incoming socket port: an override recorded under exactly that service port
replaces the declared target port, and with no override under that key the
declared target port is used, whatever the override map holds under other
keys. -/
theorem endpoint_port_override_spec (s : ProxyState) (sel : Nat) (network : String)
    (addr : SocketAddr) (svc : Service) (tp : Nat) (k : String) (ep : Endpoint) (wl : Workload)
    (hsvc : s.services.get_by_vip (network_addr network addr.ip) = some svc)
    (htp : lookupA svc.ports addr.port = some tp)
    (hch : chooseIdx sel svc.endpoints = some (k, ep))
    (hwl : s.workloads.find_uid ep.workload_uid = some wl) :
    (∀ op, lookupA ep.port addr.port = some op →
      s.find_upstream sel network addr =
        some { workload := wl, port := op,
               sans := svc.subject_alt_names, destination_service := some svc })
    ∧ (lookupA ep.port addr.port = none →
      s.find_upstream sel network addr =
        some { workload := wl, port := tp,
               sans := svc.subject_alt_names, destination_service := some svc }) := by
  constructor
  · intro op hop
    simp [ProxyState.find_upstream, hsvc, htp, hch, hwl, hop]
  · intro hop
    simp [ProxyState.find_upstream, hsvc, htp, hch, hwl, hop]

/-- C10 witness: an override under the foreign key 9999 is ignored for a
flow on port 80 (the declared target 8080 is used), while an override under
the key 80 itself replaces it with 42. -/
theorem endpoint_port_override_spec_witness :
    stateOther.find_upstream 0 "" { ip := 100, port := 80 } =
      some { workload := wlA, port := 8080, sans := ["san1"], destination_service := some svcOther }
    ∧ stateHit.find_upstream 0 "" { ip := 100, port := 80 } =
      some { workload := wlA, port := 42, sans := ["san1"], destination_service := some svcHit } :=
  ⟨(endpoint_port_override_spec stateOther 0 "" { ip := 100, port := 80 } svcOther 8080
      "e1" epOther wlA rfl rfl rfl rfl).2 rfl,
   (endpoint_port_override_spec stateHit 0 "" { ip := 100, port := 80 } svcHit 8080
      "e1" epHit wlA rfl rfl rfl rfl).1 42 rfl⟩

/-- C9: with no discovery client attached, fetch_on_demand leaves the state
untouched and every fetch method returns exactly the local lookup on the
current state: the initial read result is final. -/
theorem no_demand_local_spec (dps : DemandProxyState) (hd : dps.demand = none)
    (key : String) (addr : NetworkAddress) (uid : String) (nh : NamespacedHostname) :
    dps.fetch_on_demand key = dps.state
    ∧ (dps.fetch_workload addr).1 = dps.state.workloads.find_address addr
    ∧ (dps.fetch_workload_by_uid uid).1 = dps.state.workloads.find_uid uid
    ∧ (dps.fetch_address addr).1 = dps.state.find_address addr
    ∧ (dps.fetch_hostname nh).1 = dps.state.find_hostname nh := by
  have hod : ∀ k, dps.fetch_on_demand k = dps.state := by
    intro k
    simp [DemandProxyState.fetch_on_demand, hd]
  refine ⟨hod key, ?_, ?_, ?_, ?_⟩
  · cases h : dps.state.workloads.find_address addr <;>
      simp [DemandProxyState.fetch_workload, h, hod]
  · cases h : dps.state.workloads.find_uid uid <;>
      simp [DemandProxyState.fetch_workload_by_uid, h, hod]
  · cases h : dps.state.find_address addr <;>
      simp [DemandProxyState.fetch_address, h, hod]
  · cases h : dps.state.find_hostname nh <;>
      simp [DemandProxyState.fetch_hostname, h, hod]

/-- C9 witness: on the fixture demand state without a discovery client the
fetch results coincide with the local lookups at concrete keys. -/
theorem no_demand_local_spec_witness :
    dpsA.fetch_on_demand "k" = dpsA.state
    ∧ (dpsA.fetch_workload { network := "", address := 10 }).1 =
        dpsA.state.workloads.find_address { network := "", address := 10 }
    ∧ (dpsA.fetch_workload_by_uid "uid-a").1 = dpsA.state.workloads.find_uid "uid-a"
    ∧ (dpsA.fetch_address { network := "", address := 10 }).1 =
        dpsA.state.find_address { network := "", address := 10 }
    ∧ (dpsA.fetch_hostname { namespace_ := "default", hostname := "svc.default" }).1 =
        dpsA.state.find_hostname { namespace_ := "default", hostname := "svc.default" } :=
  no_demand_local_spec dpsA rfl "k" { network := "", address := 10 } "uid-a"
    { namespace_ := "default", hostname := "svc.default" }

/-- C4: load_balance returns an IP of workload_ips when that set is
nonempty; with no IPs and an empty hostname it fails with
NoValidDestination; with a hostname but no cache entry it fails with
NoResolvedAddresses; with a cache entry holding no IPs it fails with
EmptyResolvedAddresses; otherwise it returns an IP of the resolved set. -/
theorem load_balance_spec (dst : Workload) (sel_wl sel_dns : Nat)
    (resolved : Option ResolvedDns) :
    (dst.workload_ips ≠ [] →
      ∃ ip, ip ∈ dst.workload_ips ∧ load_balance dst sel_wl sel_dns resolved = Except.ok ip)
    ∧ (dst.workload_ips = [] → dst.hostname = "" →
      load_balance dst sel_wl sel_dns resolved =
        Except.error (ProxyError.NoValidDestination dst))
    ∧ (dst.workload_ips = [] → dst.hostname ≠ "" → resolved = none →
      load_balance dst sel_wl sel_dns resolved =
        Except.error (ProxyError.NoResolvedAddresses dst.uid))
    ∧ (∀ rdns, dst.workload_ips = [] → dst.hostname ≠ "" → resolved = some rdns →
      rdns.ips = [] →
      load_balance dst sel_wl sel_dns resolved =
        Except.error (ProxyError.EmptyResolvedAddresses dst.uid))
    ∧ (∀ rdns, dst.workload_ips = [] → dst.hostname ≠ "" → resolved = some rdns →
      rdns.ips ≠ [] →
      ∃ ip, ip ∈ rdns.ips ∧ load_balance dst sel_wl sel_dns resolved = Except.ok ip) := by
  refine ⟨?_, ?_, ?_, ?_, ?_⟩
  · intro hne
    obtain ⟨ip, hip⟩ := chooseIdx_isSome sel_wl hne
    exact ⟨ip, chooseIdx_mem hip, by simp [load_balance, hip]⟩
  · intro hips hh
    have hcn : chooseIdx sel_wl dst.workload_ips = none :=
      (chooseIdx_eq_none_iff sel_wl dst.workload_ips).mpr hips
    simp [load_balance, hcn, hh]
  · intro hips hh hr
    have hcn : chooseIdx sel_wl dst.workload_ips = none :=
      (chooseIdx_eq_none_iff sel_wl dst.workload_ips).mpr hips
    simp [load_balance, hcn, hh, hr]
  · intro rdns hips hh hr hri
    have hcn : chooseIdx sel_wl dst.workload_ips = none :=
      (chooseIdx_eq_none_iff sel_wl dst.workload_ips).mpr hips
    have hcn2 : chooseIdx sel_dns rdns.ips = none :=
      (chooseIdx_eq_none_iff sel_dns rdns.ips).mpr hri
    simp [load_balance, hcn, hh, hr, hcn2]
  · intro rdns hips hh hr hri
    have hcn : chooseIdx sel_wl dst.workload_ips = none :=
      (chooseIdx_eq_none_iff sel_wl dst.workload_ips).mpr hips
    obtain ⟨ip, hip⟩ := chooseIdx_isSome sel_dns hri
    exact ⟨ip, chooseIdx_mem hip, by simp [load_balance, hcn, hh, hr, hip]⟩

/-- C4 witness: the fixture workload with one IP load-balances to it, and
the hostname-only fixture workload with a resolved entry holding one IP
load-balances to that IP. -/
theorem load_balance_spec_witness :
    (∃ ip, ip ∈ wlA.workload_ips ∧ load_balance wlA 0 0 none = Except.ok ip)
    ∧ (∃ ip, ip ∈ rdnsA.ips ∧ load_balance wlHost 0 0 (some rdnsA) = Except.ok ip) :=
  ⟨(load_balance_spec wlA 0 0 none).1 (by decide),
   (load_balance_spec wlHost 0 0 (some rdnsA)).2.2.2.2 rdnsA rfl (by decide) rfl (by decide)⟩

/-- C1: assert_rbac denies when the destination workload cannot be
fetched; otherwise, over the applicable policies gathered from the workload
namespace, the root namespace and the workload policy list with missing
keys skipped, it denies if any Deny policy matches regardless of Allow
matches, allows if the Allow set is empty, allows if any Allow policy
matches, and denies otherwise, in that order. -/
theorem assert_rbac_spec (dps : DemandProxyState) (conn : Connection) :
    ((dps.fetch_workload (network_addr conn.dst_network conn.dst.ip)).1 = none →
      dps.assert_rbac conn = false)
    ∧ (∀ wl st, dps.fetch_workload (network_addr conn.dst_network conn.dst.ip) = (some wl, st) →
      (((denyOf (applicablePolicies st wl)).any fun p => p.matches_ conn) = true →
        dps.assert_rbac conn = false)
      ∧ (((denyOf (applicablePolicies st wl)).any fun p => p.matches_ conn) = false →
          allowOf (applicablePolicies st wl) = [] → dps.assert_rbac conn = true)
      ∧ (((denyOf (applicablePolicies st wl)).any fun p => p.matches_ conn) = false →
          ((allowOf (applicablePolicies st wl)).any fun p => p.matches_ conn) = true →
          dps.assert_rbac conn = true)
      ∧ (((denyOf (applicablePolicies st wl)).any fun p => p.matches_ conn) = false →
          allowOf (applicablePolicies st wl) ≠ [] →
          ((allowOf (applicablePolicies st wl)).any fun p => p.matches_ conn) = false →
          dps.assert_rbac conn = false)) := by
  constructor
  · intro h
    unfold DemandProxyState.assert_rbac
    rcases hfw : dps.fetch_workload (network_addr conn.dst_network conn.dst.ip) with ⟨o, st2⟩
    rw [hfw] at h
    simp only at h
    subst h
    simp [hfw]
  · intro wl st hfw
    have hbody : dps.assert_rbac conn =
        (if (denyOf (applicablePolicies st wl)).any (fun p => p.matches_ conn) then false
         else if (allowOf (applicablePolicies st wl)).isEmpty then true
         else (allowOf (applicablePolicies st wl)).any fun p => p.matches_ conn) := by
      unfold DemandProxyState.assert_rbac
      simp only [hfw, List.partition_eq_filter_filter]
      simp [applicablePolicies, allowOf, denyOf, Function.comp]
    refine ⟨?_, ?_, ?_, ?_⟩
    · intro hden
      rw [hbody, hden]
      simp
    · intro hden hnil
      rw [hbody, hden, hnil]
      simp
    · intro hden hany
      rw [hbody, hden]
      cases hie : (allowOf (applicablePolicies st wl)).isEmpty <;> simp [hie, hany]
    · intro hden hne hany
      have hie : (allowOf (applicablePolicies st wl)).isEmpty = false := by
        cases hx : allowOf (applicablePolicies st wl) with
        | nil => exact absurd hx hne
        | cons a l => simp
      rw [hbody, hden, hie]
      simp [hany]

/-- C1 witness: on the deny fixture a matching Deny policy wins over a
matching Allow policy, and on the fixture without policies the empty Allow
set means default allow. -/
theorem assert_rbac_spec_witness :
    dpsDeny.assert_rbac connC = false ∧ dpsA.assert_rbac connC = true :=
  ⟨((assert_rbac_spec dpsDeny connC).2 wlA stateRbacDeny rfl).1 rfl,
   ((assert_rbac_spec dpsA connC).2 wlA stateA rfl).2.1 rfl rfl⟩

/-- Characterization of the resolver cache read: a hit is an entry with an
initial query instant whose age is within the refresh rate. -/
theorem findResolvedHost_eq_some_iff (st : DnsResolverState) (now : Nat) (h : String)
    (r : ResolvedDns) :
    st.findResolvedHost now h = some r ↔
      lookupA st.resolved h = some r ∧
        ∃ t, r.initial_query = some t ∧ now - t < r.dns_refresh_rate := by
  cases hl : lookupA st.resolved h with
  | none => simp [DnsResolverState.findResolvedHost, hl]
  | some e =>
    simp only [DnsResolverState.findResolvedHost, hl]
    split_ifs with hc
    · constructor
      · intro he
        refine ⟨he, ?_⟩
        have her : r = e := by
          injection he with h2
          exact h2.symm
        rw [her]
        obtain ⟨hs, hlt⟩ := hc
        cases hq : e.initial_query with
        | none =>
          rw [hq] at hs
          simp at hs
        | some t =>
          rw [hq] at hlt
          exact ⟨t, rfl, hlt⟩
      · rintro ⟨he, _⟩
        exact he
    · constructor
      · intro he
        cases he
      · rintro ⟨he, t, hq, hlt⟩
        have her : e = r := by injection he
        rw [her] at hc
        exact absurd ⟨by rw [hq]; rfl, by rw [hq]; exact hlt⟩ hc

/-- C8: resolve_host serves from cache without initiating a resolution
exactly when an entry for the hostname exists whose initial query instant
is set and strictly younger than its refresh rate; an absent, unset or
expired entry is a miss that initiates a resolution. -/
theorem resolve_host_cache_spec (st : DnsResolverState) (now : Nat) (wl : Workload)
    (resp : Option (List DnsRecord)) :
    ((∃ e t, lookupA st.resolved wl.hostname = some e ∧ e.initial_query = some t ∧
        now - t < e.dns_refresh_rate) ↔ (st.resolve_host now wl resp).2.2 = false)
    ∧ (∀ e t, lookupA st.resolved wl.hostname = some e → e.initial_query = some t →
        now - t < e.dns_refresh_rate →
        st.resolve_host now wl resp = (some e, st, false)) := by
  constructor
  · constructor
    · rintro ⟨e, t, hlk, hq, hlt⟩
      have hf : st.findResolvedHost now wl.hostname = some e :=
        (findResolvedHost_eq_some_iff st now wl.hostname e).mpr ⟨hlk, t, hq, hlt⟩
      simp [DnsResolverState.resolve_host, hf]
    · intro hb
      cases hf : st.findResolvedHost now wl.hostname with
      | none =>
        have ht : (st.resolve_host now wl resp).2.2 = true := by
          simp [DnsResolverState.resolve_host, hf]
        rw [ht] at hb
        cases hb
      | some e =>
        obtain ⟨hlk, ht⟩ := (findResolvedHost_eq_some_iff st now wl.hostname e).mp hf
        obtain ⟨t, hq, hlt⟩ := ht
        exact ⟨e, t, hlk, hq, hlt⟩
  · intro e t hlk hq hlt
    have hf : st.findResolvedHost now wl.hostname = some e :=
      (findResolvedHost_eq_some_iff st now wl.hostname e).mpr ⟨hlk, t, hq, hlt⟩
    simp [DnsResolverState.resolve_host, hf]

/-- C8 witness: at instant 10 the fixture cache entry of age 10 and refresh
rate 30 is served without a resolution. -/
theorem resolve_host_cache_spec_witness :
    dnsStA.resolve_host 10 wlHost none = (some rdnsA, dnsStA, false) :=
  (resolve_host_cache_spec dnsStA 10 wlHost none).2 rdnsA 0 rfl rfl (by decide)

/-- C5: the entry stored for a processed DNS response has dns_refresh_rate
equal to the minimum TTL in whole seconds over the A and AAAA records of
the response, and equal to 60 seconds when there are none, which is
exactly when the derived IP set is empty. -/
theorem dns_refresh_rate_spec (st : DnsResolverState) (now : Nat) (wl : Workload)
    (records : List DnsRecord) (hbound : ∀ r ∈ records, r.ttl < 2 ^ 32) :
    ∃ e, lookupA (st.resolveHostUpdate now wl (some records)).resolved wl.hostname = some e
      ∧ (e.ips = [] ↔ ipTtls records = [])
      ∧ (ipTtls records = [] → e.dns_refresh_rate = 60)
      ∧ (ipTtls records ≠ [] →
          e.dns_refresh_rate ∈ ipTtls records ∧
            ∀ t ∈ ipTtls records, e.dns_refresh_rate ≤ t) := by
  refine ⟨{ hostname := wl.hostname
            ips := (processRecords records U64MAX).2
            initial_query := some now
            dns_refresh_rate :=
              if (processRecords records U64MAX).2.isEmpty then 60
              else (processRecords records U64MAX).1 }, ?_, ?_, ?_, ?_⟩
  · simp [DnsResolverState.resolveHostUpdate, lookupA]
  · exact processRecords_snd_nil records U64MAX
  · intro h
    have h2 : (processRecords records U64MAX).2 = [] :=
      (processRecords_snd_nil records U64MAX).mpr h
    simp [h2]
  · intro hne
    have h2 : (processRecords records U64MAX).2 ≠ [] := fun hh =>
      hne ((processRecords_snd_nil records U64MAX).mp hh)
    have hie : (processRecords records U64MAX).2.isEmpty = false := by
      cases hx : (processRecords records U64MAX).2 with
      | nil => exact absurd hx h2
      | cons a l => simp
    simp only [hie, Bool.false_eq_true, if_false]
    rw [processRecords_fst]
    constructor
    · rcases foldl_min_mem_or_start (ipTtls records) U64MAX with hm | hm
      · exact hm
      · exfalso
        obtain ⟨t0, ht0⟩ := List.exists_mem_of_ne_nil (ipTtls records) hne
        have hle := foldl_min_le_mem (ipTtls records) U64MAX t0 ht0
        have hb := ipTtls_bound hbound t0 ht0
        rw [hm] at hle
        have hub : (2 : Nat) ^ 32 ≤ U64MAX := by norm_num [U64MAX]
        omega
    · intro t ht
      exact foldl_min_le_mem (ipTtls records) U64MAX t ht

/-- C5 witness: for a response with an A record of TTL 30 and an AAAA
record of TTL 20 the stored entry satisfies the refresh-rate
characterization (its rate is the minimum 20). -/
theorem dns_refresh_rate_spec_witness :
    ∃ e, lookupA
        (DnsResolverState.resolveHostUpdate { resolved := [] } 5 wlHost (some recsA)).resolved
        wlHost.hostname = some e
      ∧ (e.ips = [] ↔ ipTtls recsA = [])
      ∧ (ipTtls recsA = [] → e.dns_refresh_rate = 60)
      ∧ (ipTtls recsA ≠ [] →
          e.dns_refresh_rate ∈ ipTtls recsA ∧ ∀ t ∈ ipTtls recsA, e.dns_refresh_rate ≤ t) :=
  dns_refresh_rate_spec { resolved := [] } 5 wlHost recsA (by decide)

/-- C3: fetch_waypoint returns ok none when the workload has no waypoint;
an UnsupportedFeature error when the waypoint destination is a hostname; a
FindWaypointError when the waypoint upstream at the waypoint network and
address on the HBONE mTLS port is not found or when the gateway adjustment
fails; otherwise the upstream with its gateway address adjusted — set to
the waypoint service IP or else the workload IP with the HBONE mTLS port
for HBONE, to the workload IP with the upstream port for TCP, and left
unchanged when already set. -/
theorem fetch_waypoint_spec (dps : DemandProxyState) (sel : Nat) (wl : Workload)
    (workload_ip : IpAddr) :
    (wl.waypoint = none → dps.fetch_waypoint sel wl workload_ip = Except.ok none)
    ∧ (∀ gw h, wl.waypoint = some gw → gw.destination = Destination.hostname h →
        dps.fetch_waypoint sel wl workload_ip =
          Except.error (WaypointError.UnsupportedFeature "hostname lookup not supported yet"))
    ∧ (∀ gw a, wl.waypoint = some gw → gw.destination = Destination.address a →
        ((dps.fetch_upstream sel a.network
            { ip := a.address, port := gw.hbone_mtls_port }).1 = none →
          dps.fetch_waypoint sel wl workload_ip =
            Except.error (WaypointError.FindWaypointError wl.name))
        ∧ (∀ us, (dps.fetch_upstream sel a.network
              { ip := a.address, port := gw.hbone_mtls_port }).1 = some us →
            (∀ e, set_gateway_address us workload_ip gw.hbone_mtls_port = Except.error e →
              dps.fetch_waypoint sel wl workload_ip =
                Except.error (WaypointError.FindWaypointError wl.name))
            ∧ (∀ us2, set_gateway_address us workload_ip gw.hbone_mtls_port = Except.ok us2 →
              dps.fetch_waypoint sel wl workload_ip = Except.ok (some us2))))
    ∧ (∀ us hb, us.workload.gateway_address.isSome = true →
        set_gateway_address us workload_ip hb = Except.ok us)
    ∧ (∀ us hb oip, us.workload.gateway_address = none →
        us.workload.protocol = Protocol.HBONE →
        us.workload.waypoint_svc_ip_address = Except.ok oip →
        set_gateway_address us workload_ip hb =
          Except.ok { us with workload := { us.workload with
            gateway_address := some { ip := oip.getD workload_ip, port := hb } } })
    ∧ (∀ us hb, us.workload.gateway_address = none → us.workload.protocol = Protocol.TCP →
        set_gateway_address us workload_ip hb =
          Except.ok { us with workload := { us.workload with
            gateway_address := some { ip := workload_ip, port := us.port } } }) := by
  refine ⟨?_, ?_, ?_, ?_, ?_, ?_⟩
  · intro hw
    simp [DemandProxyState.fetch_waypoint, hw]
  · intro gw h hw hd
    simp [DemandProxyState.fetch_waypoint, hw, hd]
  · intro gw a hw hd
    constructor
    · intro hfu
      simp [DemandProxyState.fetch_waypoint, hw, hd, hfu]
    · intro us hfu
      constructor
      · intro e hsg
        simp [DemandProxyState.fetch_waypoint, hw, hd, hfu, hsg]
      · intro us2 hsg
        simp [DemandProxyState.fetch_waypoint, hw, hd, hfu, hsg]
  · intro us hb hs
    cases hga : us.workload.gateway_address with
    | none =>
      rw [hga] at hs
      simp at hs
    | some g =>
      simp [set_gateway_address, hga]
  · intro us hb oip hga hpr hwp
    simp [set_gateway_address, hga, hpr, hwp]
  · intro us hb hga hpr
    simp [set_gateway_address, hga, hpr]

/-- C3 witness: on the waypoint fixture the TCP waypoint upstream is found
and returned with its gateway address set to the workload IP and the
upstream port. -/
theorem fetch_waypoint_spec_witness :
    dpsWp.fetch_waypoint 0 wlWp 55 =
      Except.ok (some
        { workload := { wlA with gateway_address := some { ip := 55, port := 15008 } }
          port := 15008
          sans := ["san1"]
          destination_service := some svcWp }) :=
  (((fetch_waypoint_spec dpsWp 0 wlWp 55).2.2.1 gwWp vipA rfl rfl).2
    { workload := wlA, port := 15008, sans := ["san1"], destination_service := some svcWp }
    rfl).2
    { workload := { wlA with gateway_address := some { ip := 55, port := 15008 } }
      port := 15008
      sans := ["san1"]
      destination_service := some svcWp }
    rfl
